import Mathlib

/-!
# Verification of the Play-LMP orchestrator (`calvin/models/play_lmp.py`)

Shallow embedding of the Play-LMP Lightning module.  Tensors are modelled as
nested lists of rationals (one nesting level per tensor dimension); the
out-of-scope sub-networks (vision encoders, goal encoders, plan proposal /
recognition networks, action decoder) are modelled as abstract function
fields of the `PlayLMP` record, matching the capability contracts of the
specification.  Python exceptions (KeyError, TypeError, AssertionError,
AttributeError, shape errors) are modelled with an `Except PyErr` monad;
stochastic sampling (`dist.sample()` / `dist.rsample()`) is modelled as a
deterministic collaborator function of the distribution parameters.
-/

namespace PlayLMPModel

/-- Rank-1 tensor: a vector of rational scalars. -/
abbrev T1 := List ℚ
/-- Rank-2 tensor. -/
abbrev T2 := List T1
/-- Rank-3 tensor (e.g. `(batch, seq, features)`). -/
abbrev T3 := List T2
/-- Rank-4 tensor (e.g. `(N, C, H, W)`). -/
abbrev T4 := List T3
/-- Rank-5 tensor (e.g. `(batch, seq, C, H, W)`). -/
abbrev T5 := List T4

/-- Python exception kinds raised by the orchestrator's code paths. -/
inductive PyErr where
  /-- `dict[key]` with a missing key. -/
  | keyError
  /-- e.g. subscripting a Python `list` with a string key, or calling `None`. -/
  | typeError
  /-- a failed `assert` statement. -/
  | assertionError
  /-- attribute access on `None` (e.g. `None.num_c`). -/
  | attributeError
  /-- e.g. `np.array` on ragged nested lists. -/
  | valueError
  /-- torch shape errors (reshape/cat/eq with incompatible shapes). -/
  | runtimeError
  /-- index out of range (e.g. `t[:, 0]` with empty dim 1). -/
  | indexError
deriving DecidableEq, Repr

/-- One-pass chunking worker: `acc` holds the current chunk reversed and
`k` the remaining slots in it (structural recursion on the list, so that
it reduces definitionally). -/
def chunksAux (n : Nat) : List α → List α → Nat → List (List α)
  | [], acc, _ => if acc.isEmpty then [] else [acc.reverse]
  | x :: xs, acc, k =>
    match k with
    | 0 => []
    | 1 => (x :: acc).reverse :: chunksAux n xs [] n
    | _ + 2 => chunksAux n xs (x :: acc) (k - 1)

/-- Split a list into consecutive chunks of size `n` (`n = 0` gives `[]`).
Used to model `torch.reshape`, which reads elements in row-major order and
re-chunks them according to the target shape. -/
def chunks (n : Nat) (xs : List α) : List (List α) :=
  if n = 0 then [] else chunksAux n xs [] n

/-- Flatten a rank-2 tensor to its row-major element list. -/
def flat2 (t : T2) : List ℚ := t.flatten
/-- Flatten a rank-3 tensor to its row-major element list. -/
def flat3 (t : T3) : List ℚ := (t.map flat2).flatten
/-- Flatten a rank-4 tensor to its row-major element list. -/
def flat4 (t : T4) : List ℚ := (t.map flat3).flatten
/-- Flatten a rank-5 tensor to its row-major element list. -/
def flat5 (t : T5) : List ℚ := (t.map flat4).flatten

/-- `xs.reshape(-1, c, h, w)`: torch infers the leading dimension from the
element count; it errors when the count is not divisible (or `c*h*w = 0`). -/
def reshapeTo4 (c h w : Nat) (xs : List ℚ) : Except PyErr T4 :=
  if c * h * w ≠ 0 ∧ (c * h * w) ∣ xs.length then
    .ok (chunks c (chunks h (chunks w xs)))
  else .error .runtimeError

/-- `xs.reshape(b, s, -1)`: torch infers the trailing dimension; errors when
`b*s = 0` or the element count is not divisible by `b*s`. -/
def reshapeTo3 (b s : Nat) (xs : List ℚ) : Except PyErr T3 :=
  if b * s ≠ 0 ∧ (b * s) ∣ xs.length then
    .ok (chunks s (chunks (xs.length / (b * s)) xs))
  else .error .runtimeError

/-- `torch.cat([a, b], dim=1)` for rank-4 tensors: concatenate per leading
index (the source only uses this for rectangular tensors whose trailing
dims agree). -/
def cat4dim1 (a b : T4) : Except PyErr T4 :=
  if a.length = b.length then .ok ((a.zip b).map fun p => p.1 ++ p.2)
  else .error .runtimeError

/-- `torch.cat([a, b], dim=-1)` for rank-3 tensors. -/
def cat3last (a b : T3) : Except PyErr T3 :=
  if a.length = b.length then
    (a.zip b).mapM fun p =>
      if p.1.length = p.2.length then .ok ((p.1.zip p.2).map fun q => q.1 ++ q.2)
      else .error .runtimeError
  else .error .runtimeError

/-- `torch.unsqueeze(t, 2)` for a rank-4 `(b, s, h, w)` tensor: wrap each
`(h, w)` slice in a singleton channel dimension, giving `(b, s, 1, h, w)`. -/
def unsqueezeDim2 (t : T4) : T5 := t.map fun row => row.map fun hw => [hw]

/-- `t[:, 0]` for a rank-3 tensor (IndexError when dim 1 is empty). -/
def indexFirst (t : T3) : Except PyErr T2 :=
  t.mapM fun row => match row.head? with
    | some v => .ok v
    | none => .error .indexError

/-- `t[:, -1]` for a rank-3 tensor (IndexError when dim 1 is empty). -/
def indexLast (t : T3) : Except PyErr T2 :=
  t.mapM fun row => match row.getLast? with
    | some v => .ok v
    | none => .error .indexError

/-- `t[..., -1]` for a rank-3 tensor: last entry along the trailing
dimension (IndexError when that dimension is empty). -/
def lastFeat3 (t : T3) : Except PyErr T2 :=
  t.mapM fun row => row.mapM fun v => match v.getLast? with
    | some x => .ok x
    | none => .error .indexError

/-- `t[..., :-1]` for a rank-3 tensor. -/
def dropLastFeat (t : T3) : T3 := t.map fun row => row.map fun v => v.dropLast

/-- Mean of all entries of a rank-2 tensor (`torch.mean`).  On an empty
tensor torch yields NaN; rationals have no NaN, so the 0-element case
evaluates to `0` — no claim touches that case. -/
def mean2 (t : T2) : ℚ := (flat2 t).sum / (flat2 t).length

/-- `torch.mean(t, 1)` for a rank-3 `(b, s, f)` tensor: per-batch column
means over the sequence dimension, giving `(b, f)`. -/
def meanDim1 (t : T3) : T2 :=
  t.map fun rows =>
    match rows with
    | [] => []
    | r0 :: _ => (List.range r0.length).map fun j =>
        ((rows.map fun r => r.getD j 0).sum) / rows.length

/-- Elementwise `|a - b|` on rank-3 tensors, modelling
`torch.nn.functional.l1_loss(a, b, reduction="none")` for equal shapes
(shape mismatch errors). -/
def l1None (a b : T3) : Except PyErr T3 :=
  if a.length = b.length then
    (a.zip b).mapM fun p =>
      if p.1.length = p.2.length then
        (p.1.zip p.2).mapM fun q =>
          if q.1.length = q.2.length then
            .ok ((q.1.zip q.2).map fun e => |e.1 - e.2|)
          else .error .runtimeError
      else .error .runtimeError
  else .error .runtimeError

/-- Python strings are modelled as character lists (so that the source's
substring test `"vis" in self.modality_scope` can be stated). -/
abbrev Name := List Char

/-- `pat` is an initial segment of `s` (helper for Python's `in` on strings). -/
def strStarts : Name → Name → Bool
  | _, [] => true
  | [], _ :: _ => false
  | c :: cs, d :: ds => c = d && strStarts cs ds

/-- Python's `pat in s` for strings: `pat` occurs contiguously in `s`. -/
def strHas : Name → Name → Bool
  | [], pat => pat.isEmpty
  | s@(_ :: rest), pat => strStarts s pat || strHas rest pat

/-- A tensor stored in one of the mappings handed to `visual_embedding`:
RGB streams are rank-5 `(b, s, c, h, w)`, depth streams rank-4 `(b, s, h, w)`. -/
inductive Val where
  | t5 : T5 → Val
  | t4 : T4 → Val
deriving DecidableEq

/-- A Python value passed for the `imgs` / `depth_imgs` parameters of
`visual_embedding`.  The training/validation loops pass dicts; the three
inference entry points build Python *lists* (`play_lmp.py` lines 440-441,
462-467, 486-487) and pass those to the same dict-subscripting code. -/
inductive Arg where
  | dict : List (Name × Val) → Arg
  | pylist : List Val → Arg

/-- `a[k]` for a string key `k`: KeyError on a dict without the key,
TypeError on a Python list (list indices must be integers). -/
def argGet (a : Arg) (k : Name) : Except PyErr Val :=
  match a with
  | .dict d =>
    match d.find? (fun p => p.1 = k) with
    | some p => .ok p.2
    | none => .error .keyError
  | .pylist _ => .error .typeError

/-- `k in a` for a string key: membership for dicts; on a Python list of
tensors comparing a string with a tensor raises (unreached in the source,
since subscripting the list raises first). -/
def argHas (a : Arg) (k : Name) : Except PyErr Bool :=
  match a with
  | .dict d => .ok (d.any fun p => p.1 = k)
  | .pylist _ => .error .typeError

/-- Expect a rank-5 tensor (`b, s, c, h, w = t.shape` unpacks five dims;
other ranks raise). -/
def asT5 (v : Val) : Except PyErr T5 :=
  match v with
  | .t5 t => .ok t
  | .t4 _ => .error .valueError

/-- Expect a rank-4 tensor (the depth stream before `unsqueeze(·, 2)`). -/
def asT4 (v : Val) : Except PyErr T4 :=
  match v with
  | .t4 t => .ok t
  | .t5 _ => .error .valueError

/-- A parametric plan distribution, tagged by its parameters
(mean, log-variance) as in the spec's design note; the orchestrator only
passes distributions between collaborator functions. -/
abbrev Dist := T2 × T2

/-- The Play-LMP module state: the out-of-scope sub-networks as abstract
function-valued fields (their learned parameters are opaque inside these
functions), plus the two mutable scalars the orchestrator owns
(`kl_beta`, `modality_scope`).  `vision_gripper`, `language_goal` and
`tactile_enc` are `None`-able exactly as in `__init__` (lines 56-59). -/
structure PlayLMP where
  plan_proposal : T2 → T2 → Dist
  plan_recognition : T3 → Dist
  vision_static : T4 → T2
  vision_gripper : Option (T4 → T2)
  visual_goal : T2 → T2
  language_goal : Option (T2 → T2)
  tactile_enc : Option (T4 → T2)
  /-- `dist.sample()` (non-differentiable), as a function of the parameters. -/
  dist_sample : Dist → T2
  /-- `dist.rsample()` (reparameterized), as a function of the parameters. -/
  dist_rsample : Dist → T2
  /-- `D.kl_divergence(pr, pp).mean()`: the batch-averaged KL divergence. -/
  kl_div_mean : Dist → Dist → ℚ
  /-- `action_decoder.loss(plan, emb, goal, actions)`. -/
  decoder_loss : T2 → T3 → T2 → T3 → ℚ
  /-- `action_decoder.loss_and_act(plan, emb, goal, actions)`. -/
  decoder_loss_and_act : T2 → T3 → T2 → T3 → ℚ × T3
  /-- `action_decoder.act(plan, emb, goal)`. -/
  decoder_act : T2 → T3 → T2 → T3
  kl_beta : ℚ
  modality_scope : Name

/-- Config of an RGB vision encoder (`vision_static` / `vision_gripper`):
declared output width and expected input channel count. -/
structure VisionConf where
  visual_features : Int
  num_c : Int
deriving DecidableEq, Repr

/-- Config of a depth encoder (`depth_static` / `depth_gripper`). -/
structure DepthConf where
  num_c : Int
deriving DecidableEq, Repr

/-- Config of the tactile encoder. -/
structure TactileConf where
  visual_features : Int
deriving DecidableEq, Repr

/-- Config of a sub-network receiving the derived sizes
(`plan_proposal`, `plan_recognition`, `visual_goal`, `decoder`). -/
structure NetConf where
  n_state_obs : Int
  visual_features : Int
deriving DecidableEq, Repr

/-- Config carrying the proprioceptive `keep_indices` ranges. -/
structure ProprioConf where
  keep_indices : List (List Int)
deriving DecidableEq, Repr

/-- `int(np.sum(np.diff([...keep_indices...])))` (line 85): `np.diff`
takes adjacent differences along each row, `np.sum` adds them all.
`np.array` refuses ragged nested lists, so rows of unequal length raise. -/
def np_state_obs (keep : List (List Int)) : Except PyErr Int :=
  if keep.all fun r => r.length = (keep.headD []).length then
    .ok ((keep.map fun r => ((r.zip r.tail).map fun p => p.2 - p.1).sum).sum)
  else .error .valueError

/-- Lines 95-96: `if depth_gripper and vision_gripper.num_c < 4:
vision_gripper.num_c += depth_gripper.num_c`.  The `and` short-circuits,
so `vision_gripper.num_c` is evaluated only when a depth_gripper config is
present — and raises AttributeError when `vision_gripper` is `None`. -/
def gripper_channel_step (depth_gripper : Option DepthConf)
    (vision_gripper : Option VisionConf) : Except PyErr (Option VisionConf) :=
  match depth_gripper with
  | none => .ok vision_gripper
  | some d => match vision_gripper with
    | none => .error .attributeError
    | some g =>
      .ok (some (if g.num_c < 4 then { g with num_c := g.num_c + d.num_c } else g))

/-- Lines 97-98: `if depth_static and vision_static.num_c < 4:
vision_static.num_c += depth_static.num_c`. -/
def static_channel_step (depth_static : Option DepthConf)
    (vision_static : VisionConf) : VisionConf :=
  match depth_static with
  | none => vision_static
  | some d =>
    if vision_static.num_c < 4 then
      { vision_static with num_c := vision_static.num_c + d.num_c }
    else vision_static

/-- The bundle of configuration objects mutated by `setup_input_sizes`. -/
structure SetupOut where
  vision_static : VisionConf
  vision_gripper : Option VisionConf
  plan_proposal : NetConf
  plan_recognition : NetConf
  visual_goal : NetConf
  decoder : NetConf
deriving DecidableEq, Repr

/-- `PlayLMP.setup_input_sizes` (lines 71-104), as a function from the
configuration objects to their mutated versions.  The depth and gripper
configs are `Option`s (`None`-able constructor arguments); evaluating
`vision_gripper.num_c` when `vision_gripper` is `None` (line 95, reached
whenever `depth_gripper` is truthy) raises AttributeError.  `depth_static`
and `depth_gripper` themselves are never mutated. -/
def setup_input_sizes (vision_static : VisionConf) (depth_static : Option DepthConf)
    (vision_gripper : Option VisionConf) (depth_gripper : Option DepthConf)
    (plan_proposal plan_recognition visual_goal decoder : NetConf)
    (proprio_state : ProprioConf) (tactile : Option TactileConf) :
    Except PyErr SetupOut := do
  let n_state_obs ← np_state_obs proprio_state.keep_indices
  let plan_proposal := { plan_proposal with n_state_obs := n_state_obs }
  let plan_recognition := { plan_recognition with n_state_obs := n_state_obs }
  let visual_goal := { visual_goal with n_state_obs := n_state_obs }
  let decoder := { decoder with n_state_obs := n_state_obs }
  let visual_features := vision_static.visual_features
  let visual_features := match vision_gripper with
    | some g => visual_features + g.visual_features
    | none => visual_features
  let vision_gripper ← gripper_channel_step depth_gripper vision_gripper
  let vision_static := static_channel_step depth_static vision_static
  let visual_features := match tactile with
    | some t => visual_features + t.visual_features
    | none => visual_features
  let plan_proposal := { plan_proposal with visual_features := visual_features }
  let plan_recognition := { plan_recognition with visual_features := visual_features }
  let visual_goal := { visual_goal with visual_features := visual_features }
  let decoder := { decoder with visual_features := visual_features }
  pure ⟨vision_static, vision_gripper, plan_proposal, plan_recognition, visual_goal, decoder⟩

/-- Dict key `"rgb_static"`. -/
def rgb_static_key : Name := "rgb_static".toList
/-- Dict key `"rgb_gripper"`. -/
def rgb_gripper_key : Name := "rgb_gripper".toList
/-- Dict key `"rgb_tactile"`. -/
def rgb_tactile_key : Name := "rgb_tactile".toList
/-- Dict key `"depth_static"`. -/
def depth_static_key : Name := "depth_static".toList
/-- Dict key `"depth_gripper"`. -/
def depth_gripper_key : Name := "depth_gripper".toList

/-- Call an optional sub-network (`self.vision_gripper`, `self.tactile_enc`,
`self.language_goal`); calling `None` raises TypeError. -/
def callNet {α : Type} (f : Option (α → T2)) (x : α) : Except PyErr T2 :=
  match f with
  | some g => .ok (g x)
  | none => .error .typeError

/-- `x if key in container else None` (lines 112-115): evaluate the
membership test on `container`, then the subscript on `src`. -/
def condGet (container src : Arg) (k : Name) : Except PyErr (Option Val) := do
  let mem ← argHas container k
  if mem then (argGet src k).map some else pure none

/-- `PlayLMP.visual_embedding` (lines 110-146).  Note the source's lines
114-115 test membership in `depth_imgs` but subscript `imgs`
(`imgs["depth_static"]` / `imgs["depth_gripper"]`); the translation
preserves that. -/
def visual_embedding (M : PlayLMP) (imgs depth_imgs : Arg) : Except PyErr T3 := do
  let imgs_static ← argGet imgs rgb_static_key
  let imgs_gripper ← condGet imgs imgs rgb_gripper_key
  let imgs_tactile ← condGet imgs imgs rgb_tactile_key
  let depth_static ← condGet depth_imgs imgs depth_static_key
  let depth_gripper ← condGet depth_imgs imgs depth_gripper_key
  -- b, s, c, h, w = imgs_static.shape  (five dims are unpacked)
  let t ← asT5 imgs_static
  let b := t.length
  let s := (t.headD []).length
  let c := ((t.headD []).headD []).length
  let hgt := (((t.headD []).headD []).headD []).length
  let w := ((((t.headD []).headD []).headD []).headD []).length
  let is4 ← reshapeTo4 c hgt w (flat5 t)
  let is4 ← match depth_static with
    | none => pure is4
    | some dv => do
      let d4 ← asT4 dv
      let d4b ← reshapeTo4 1 hgt w (flat5 (unsqueezeDim2 d4))
      cat4dim1 is4 d4b
  let encoded_imgs ← reshapeTo3 b s (flat2 (M.vision_static is4))
  let encoded_imgs ← match imgs_gripper with
    | none => pure encoded_imgs
    | some gv => do
      let g ← asT5 gv
      let b := g.length
      let s := (g.headD []).length
      let c := ((g.headD []).headD []).length
      let hgt := (((g.headD []).headD []).headD []).length
      let w := ((((g.headD []).headD []).headD []).headD []).length
      let g4 ← reshapeTo4 c hgt w (flat5 g)
      let g4 ← match depth_gripper with
        | none => pure g4
        | some dv => do
          let d4 ← asT4 dv
          let d4b ← reshapeTo4 1 hgt w (flat5 (unsqueezeDim2 d4))
          cat4dim1 g4 d4b
      let encg ← callNet M.vision_gripper g4
      let encg3 ← reshapeTo3 b s (flat2 encg)
      cat3last encoded_imgs encg3
  let encoded_imgs ← match imgs_tactile with
    | none => pure encoded_imgs
    | some tv => do
      let tt ← asT5 tv
      let b := tt.length
      let s := (tt.headD []).length
      let c := ((tt.headD []).headD []).length
      let hgt := (((tt.headD []).headD []).headD []).length
      let w := ((((tt.headD []).headD []).headD []).headD []).length
      let t4 ← reshapeTo4 c hgt w (flat5 tt)
      let enct ← callNet M.tactile_enc t4
      let enct3 ← reshapeTo3 b s (flat2 enct)
      cat3last encoded_imgs enct3
  pure encoded_imgs

/-- `PlayLMP.perceptual_embedding` (lines 148-150):
`torch.cat([visual_emb, obs], dim=-1)`. -/
def perceptual_embedding (visual_emb obs : T3) : Except PyErr T3 :=
  cat3last visual_emb obs

/-- `PlayLMP.compute_kl_loss` (lines 289-299): the batch-averaged KL
divergence scaled by `kl_beta` (the `self.log` calls are pure metric
emission and have no effect on the returned value). -/
def compute_kl_loss (M : PlayLMP) (pr_dist pp_dist : Dist) : ℚ :=
  M.kl_div_mean pr_dist pp_dist * M.kl_beta

/-- `PlayLMP.lmp_train` (lines 152-168). -/
def lmp_train (M : PlayLMP) (perceptual_emb : T3) (latent_goal : T2) (train_acts : T3) :
    Except PyErr (ℚ × ℚ × ℚ × Dist × Dist) := do
  let pe0 ← indexFirst perceptual_emb
  let pp_dist := M.plan_proposal pe0 latent_goal
  let pr_dist := M.plan_recognition perceptual_emb
  let sampled_plan := M.dist_rsample pr_dist
  let action_loss := M.decoder_loss sampled_plan perceptual_emb latent_goal train_acts
  let kl_loss := compute_kl_loss M pr_dist pp_dist
  let total_loss := action_loss + kl_loss
  pure (kl_loss, action_loss, total_loss, pp_dist, pr_dist)

/-- Lines 199-201 / 218-220: `m = x > 0; x[m] = 1; x[~m] = -1` applied to
one entry — strictly positive values map to `1`, all others to `-1`. -/
def gripperBinarize (x : ℚ) : ℚ := if 0 < x then 1 else -1

/-- The mask assignment of lines 199-201 applied to the whole
`(batch, seq)` gripper slice. -/
def binarize2 (t : T2) : T2 := t.map fun r => r.map gripperBinarize

/-- `torch.mean((gt == pred).float())` (lines 202/221): elementwise
equality (shapes must agree), cast to 0/1, averaged over all entries. -/
def eqFloatMean (gt pred : T2) : Except PyErr ℚ :=
  if gt.length = pred.length then do
    let rows ← (gt.zip pred).mapM fun p =>
      if p.1.length = p.2.length then
        Except.ok ((p.1.zip p.2).map fun q => if q.1 = q.2 then (1 : ℚ) else 0)
      else Except.error PyErr.runtimeError
    pure (mean2 rows)
  else .error .runtimeError

/-- The nine values returned by `lmp_val` (lines 223-233), in order. -/
structure LmpValOut where
  sampled_plan_pp : T2
  action_loss_pp : ℚ
  sampled_plan_pr : T2
  action_loss_pr : ℚ
  kl_loss : ℚ
  mae_pp : T2
  mae_pr : T2
  gripper_sr_pp : ℚ
  gripper_sr_pr : ℚ
deriving DecidableEq, Repr

/-- `PlayLMP.lmp_val` (lines 170-233).  `gripper_discrete_pp` is a view of
`sample_act_pp` and the masked assignments of lines 200-201/219-220 mutate
it in place, but no later statement reads the mutated columns (both `mae`
slices are taken beforehand and only the sampled plans are returned), so
the pure translation is observationally equivalent. -/
def lmp_val (M : PlayLMP) (perceptual_emb : T3) (latent_goal : T2) (actions : T3) :
    Except PyErr LmpValOut := do
  let pe0 ← indexFirst perceptual_emb
  let pp_dist := M.plan_proposal pe0 latent_goal
  let sampled_plan_pp := M.dist_sample pp_dist
  let la_pp := M.decoder_loss_and_act sampled_plan_pp perceptual_emb latent_goal actions
  let action_loss_pp := la_pp.1
  let sample_act_pp := la_pp.2
  let mae_pp_raw ← l1None (dropLastFeat sample_act_pp) (dropLastFeat actions)
  let mae_pp := meanDim1 mae_pp_raw
  let gripper_discrete_pp ← lastFeat3 sample_act_pp
  let gt_gripper_act ← lastFeat3 actions
  let gripper_discrete_pp := binarize2 gripper_discrete_pp
  let gripper_sr_pp ← eqFloatMean gt_gripper_act gripper_discrete_pp
  let pr_dist := M.plan_recognition perceptual_emb
  let sampled_plan_pr := M.dist_sample pr_dist
  let la_pr := M.decoder_loss_and_act sampled_plan_pr perceptual_emb latent_goal actions
  let action_loss_pr := la_pr.1
  let sample_act_pr := la_pr.2
  let mae_pr_raw ← l1None (dropLastFeat sample_act_pr) (dropLastFeat actions)
  let mae_pr := meanDim1 mae_pr_raw
  let kl_loss := compute_kl_loss M pr_dist pp_dist
  let gripper_discrete_pr ← lastFeat3 sample_act_pr
  let gripper_discrete_pr := binarize2 gripper_discrete_pr
  let gripper_sr_pr ← eqFloatMean gt_gripper_act gripper_discrete_pr
  pure ⟨sampled_plan_pp, action_loss_pp, sampled_plan_pr, action_loss_pr, kl_loss,
        mae_pp, mae_pr, gripper_sr_pp, gripper_sr_pr⟩

/-- One modality's batch for a training/validation step (the keys the
training-loop collaborator guarantees, §6 of the spec): `rgb_obs` and
`depth_obs` are the two sensor mappings, `lang` is present only for
language modalities (`dataset_batch["lang"]` on a batch without it raises
KeyError), `idx` is the dataset index. -/
structure ModBatch where
  rgb_obs : Arg
  depth_obs : Arg
  robot_obs : T3
  actions : T3
  lang : Option T2
  idx : ℚ

/-- The vision-goal marker substring `"vis"` of lines 270/335. -/
def vis_marker : Name := "vis".toList

/-- The latent-goal selection of lines 268-272 and 333-337:
`self.visual_goal(perceptual_emb[:, -1]) if "vis" in self.modality_scope
else self.language_goal(dataset_batch["lang"])`. -/
def latent_goal_of (M : PlayLMP) (scope : Name) (perceptual_emb : T3) (db : ModBatch) :
    Except PyErr T2 :=
  if strHas scope vis_marker then do
    let pel ← indexLast perceptual_emb
    pure (M.visual_goal pel)
  else do
    let l ← match db.lang with
      | some l => Except.ok l
      | none => Except.error PyErr.keyError
    callNet M.language_goal l

/-- The `for self.modality_scope, dataset_batch in batch.items()` loop of
`training_step` (lines 265-278), accumulating the three scalar losses; the
`Name` component threads `self.modality_scope` (assigned to the current
key before each body). -/
def train_loop (M : PlayLMP) :
    List (Name × ModBatch) → ℚ → ℚ → ℚ → Name → Except PyErr (ℚ × ℚ × ℚ × Name)
  | [], kl_loss, action_loss, total_loss, scope => .ok (kl_loss, action_loss, total_loss, scope)
  | (scope, dataset_batch) :: rest, kl_loss, action_loss, total_loss, _ => do
    let visual_emb ← visual_embedding M dataset_batch.rgb_obs dataset_batch.depth_obs
    let pe ← perceptual_embedding visual_emb dataset_batch.robot_obs
    let latent_goal ← latent_goal_of M scope pe dataset_batch
    let r ← lmp_train M pe latent_goal dataset_batch.actions
    train_loop M rest (kl_loss + r.1) (action_loss + r.2.1) (total_loss + r.2.2.1) scope

/-- `PlayLMP.training_step` (lines 235-287): run the per-modality loop from
zero accumulators, then divide by the number of modalities and return the
total loss together with the module state (whose `modality_scope` retains
the last key; the `self.log` calls are pure metric emission). -/
def training_step (M : PlayLMP) (batch : List (Name × ModBatch)) :
    Except PyErr (ℚ × PlayLMP) := do
  let r ← train_loop M batch 0 0 0 M.modality_scope
  let total_loss := r.2.2.1 / (batch.length : ℚ)
  let _kl_loss := r.1 / (batch.length : ℚ)
  let _action_loss := r.2.1 / (batch.length : ℚ)
  pure (total_loss, { M with modality_scope := r.2.2.2 })

/-- A value stored in `validation_step`'s output dict: a scalar or a
rank-2 tensor. -/
inductive OutVal where
  | q : ℚ → OutVal
  | t2 : T2 → OutVal
deriving DecidableEq

/-- The per-modality loop of `validation_step` (lines 330-358), appending
the keyed outputs of `lmp_val` for each modality.  The output dict is
modelled as an association list in insertion order (the modality keys are
distinct in any real batch mapping, so no entry is ever overwritten). -/
def val_loop (M : PlayLMP) :
    List (Name × ModBatch) → List (Name × OutVal) → Name →
    Except PyErr (List (Name × OutVal) × Name)
  | [], out, scope => .ok (out, scope)
  | (scope, dataset_batch) :: rest, out, _ => do
    let visual_emb ← visual_embedding M dataset_batch.rgb_obs dataset_batch.depth_obs
    let pe ← perceptual_embedding visual_emb dataset_batch.robot_obs
    let latent_goal ← latent_goal_of M scope pe dataset_batch
    let o ← lmp_val M pe latent_goal dataset_batch.actions
    let out := out ++
      [("val_action_loss_pp_".toList ++ scope, OutVal.q o.action_loss_pp),
       ("sampled_plan_pp_".toList ++ scope, OutVal.t2 o.sampled_plan_pp),
       ("val_action_loss_pr_".toList ++ scope, OutVal.q o.action_loss_pr),
       ("sampled_plan_pr_".toList ++ scope, OutVal.t2 o.sampled_plan_pr),
       ("kl_loss_".toList ++ scope, OutVal.q o.kl_loss),
       ("mae_pp_".toList ++ scope, OutVal.t2 o.mae_pp),
       ("mae_pr_".toList ++ scope, OutVal.t2 o.mae_pr),
       ("gripper_sr_pp".toList ++ scope, OutVal.q o.gripper_sr_pp),
       ("gripper_sr_pr".toList ++ scope, OutVal.q o.gripper_sr_pr),
       ("idx_".toList ++ scope, OutVal.q dataset_batch.idx)]
    val_loop M rest out scope

/-- `PlayLMP.validation_step` (lines 305-360). -/
def validation_step (M : PlayLMP) (batch : List (Name × ModBatch)) :
    Except PyErr (List (Name × OutVal) × PlayLMP) := do
  let r ← val_loop M batch [] M.modality_scope
  pure (r.1, { M with modality_scope := r.2 })

/-- `PlayLMP.predict_with_plan` (lines 431-449).  The method body contains
no assignment to `self` and runs under `torch.no_grad()`; it is a pure
function of the module state, returned unchanged as the second component.
Lines 440-441 build Python *lists* (`[curr_img.unsqueeze(0) for ...]`)
and hand them to `visual_embedding`, which subscripts them with string
keys. -/
def predict_with_plan (M : PlayLMP) (curr_imgs : List T4) (curr_depths : List T3)
    (curr_state : T2) (latent_goal : T2) (sampled_plan : T2) :
    Except PyErr T3 × PlayLMP :=
  let imgs := Arg.pylist (curr_imgs.map fun t => Val.t5 [t])
  let depth_imgs := Arg.pylist (curr_depths.map fun t => Val.t4 [t])
  let state : T3 := [curr_state]
  ((do
    let visual_emb ← visual_embedding M imgs depth_imgs
    let pe ← perceptual_embedding visual_emb state
    pure (M.decoder_act sampled_plan pe latent_goal)), M)

/-- `PlayLMP.get_pp_plan_vision` (lines 451-477): assert equal lengths of
the current/goal image and depth lists, concatenate current and goal along
a synthetic sequence axis of length 2 (`torch.cat` on dim 0, then
`unsqueeze(0)`), embed, take the latent goal from the last timestep and
the proposal from the first, and sample a plan.  No assignment to `self`;
runs under `torch.no_grad()`. -/
def get_pp_plan_vision (M : PlayLMP) (curr_imgs : List T4) (curr_depths : List T3)
    (goal_imgs : List T4) (goal_depths : List T3) (curr_state goal_state : T2) :
    Except PyErr (T2 × T2) × PlayLMP :=
  ((do
    if curr_imgs.length = goal_imgs.length then pure () else Except.error PyErr.assertionError
    if curr_depths.length = goal_depths.length then pure () else Except.error PyErr.assertionError
    let imgs := Arg.pylist ((curr_imgs.zip goal_imgs).map fun p => Val.t5 [p.1 ++ p.2])
    let depth_imgs := Arg.pylist ((curr_depths.zip goal_depths).map fun p => Val.t4 [p.1 ++ p.2])
    let state : T3 := [curr_state ++ goal_state]
    let visual_emb ← visual_embedding M imgs depth_imgs
    let pe ← perceptual_embedding visual_emb state
    let pel ← indexLast pe
    let latent_goal := M.visual_goal pel
    let pe0 ← indexFirst pe
    let pp_dist := M.plan_proposal pe0 latent_goal
    let sampled_plan := M.dist_sample pp_dist
    pure (sampled_plan, latent_goal)), M)

/-- `PlayLMP.get_pp_plan_lang` (lines 479-497).  No assignment to `self`;
runs under `torch.no_grad()`. -/
def get_pp_plan_lang (M : PlayLMP) (curr_imgs : List T4) (curr_depths : List T3)
    (curr_state : T2) (goal_lang : T2) :
    Except PyErr (T2 × T2) × PlayLMP :=
  let imgs := Arg.pylist (curr_imgs.map fun t => Val.t5 [t])
  let depth_imgs := Arg.pylist (curr_depths.map fun t => Val.t4 [t])
  let state : T3 := [curr_state]
  ((do
    let visual_emb ← visual_embedding M imgs depth_imgs
    let pe ← perceptual_embedding visual_emb state
    let latent_goal ← callNet M.language_goal goal_lang
    let pe0 ← indexFirst pe
    let pp_dist := M.plan_proposal pe0 latent_goal
    let sampled_plan := M.dist_sample pp_dist
    pure (sampled_plan, latent_goal)), M)

/-- `(end − start)` of one `keep_indices` range `[start, end]` (spec §4.1). -/
def rangeSpan (r : List Int) : Int := r.getLastD 0 - r.headD 0

/-- Spec §8.1: the sum over the configured ranges of `(end − start)`. -/
def rangeSpanSum (keep : List (List Int)) : Int := (keep.map rangeSpan).sum

/-- All scalar pairs of two equally-shaped rank-2 tensors, row by row. -/
def pairUp (a b : T2) : List (ℚ × ℚ) := ((a.zip b).map fun p => p.1.zip p.2).flatten

/-- Spec §4.5, stated from the spec's words: "binarize both predicted and
ground-truth gripper action to {+1, −1} using a threshold at zero (values
> 0 map to +1, else −1), then compute the fraction of exact matches"
(first argument: ground truth, second: prediction). -/
def gripper_sr_spec (gt pred : T2) : ℚ :=
  (((pairUp gt pred).countP fun q => decide (gripperBinarize q.1 = gripperBinarize q.2) : ℕ) : ℚ) /
    ((pairUp gt pred).length : ℚ)

/-- The fraction the code actually computes (lines 197-202/216-221): the
*raw* ground-truth gripper entry compared against the binarized
prediction; the ground truth is never binarized. -/
def gripper_sr_actual (gt pred : T2) : ℚ :=
  (((pairUp gt pred).countP fun q => decide (q.1 = gripperBinarize q.2) : ℕ) : ℚ) /
    ((pairUp gt pred).length : ℚ)

theorem except_bind_ok (a : α) (k : α → Except ε β) :
    (Except.ok a >>= k : Except ε β) = k a := rfl

theorem except_bind_err (e : ε) (k : α → Except ε β) :
    ((Except.error e : Except ε α) >>= k) = Except.error e := rfl

theorem except_pure (a : α) : (pure a : Except ε α) = Except.ok a := rfl

theorem except_map_ok (f : α → β) (a : α) :
    (Except.ok a : Except ε α).map f = Except.ok (f a) := rfl

theorem except_map_err (f : α → β) (e : ε) :
    (Except.error e : Except ε α).map f = Except.error e := rfl

/-- Summing a 0/1 indicator over a list counts the satisfying entries. -/
theorem sum_indicator_eq_countP (p : ℚ × ℚ → Prop) [DecidablePred p] (l : List (ℚ × ℚ)) :
    (l.map fun q => if p q then (1 : ℚ) else 0).sum = (l.countP fun q => decide (p q) : ℚ) := by
  induction l with
  | nil => simp
  | cons a l ih =>
    simp only [List.map_cons, List.sum_cons, List.countP_cons, ih]
    by_cases h : p a
    · simp [h]; ring
    · simp [h]

/-- Per-row adjacent differences of `[start, end]` pairs sum to the
spec's sum of `(end − start)`. -/
theorem row_diff_sum (keep : List (List Int))
    (h : ∀ r ∈ keep, ∃ a b : Int, r = [a, b]) :
    (keep.map fun r => ((r.zip r.tail).map fun p => p.2 - p.1).sum).sum
      = rangeSpanSum keep := by
  unfold rangeSpanSum
  induction keep with
  | nil => simp
  | cons r rest ih =>
    obtain ⟨a, b, rfl⟩ := h r (by simp)
    simp only [List.map_cons, List.sum_cons]
    rw [ih (fun r hr => h r (List.mem_cons_of_mem _ hr))]
    simp [rangeSpan]

/-- `np_state_obs` on a list of `[start, end]` pairs computes the spec's
sum of `(end − start)`. -/
theorem np_state_obs_pairs (keep : List (List Int))
    (h : ∀ r ∈ keep, ∃ a b : Int, r = [a, b]) :
    np_state_obs keep = .ok (rangeSpanSum keep) := by
  have hall : (keep.all fun r => r.length = (keep.headD []).length) = true := by
    cases keep with
    | nil => rfl
    | cons r0 rest =>
      obtain ⟨a, b, rfl⟩ := h r0 (by simp)
      simp only [List.all_eq_true, decide_eq_true_eq]
      intro r hr
      obtain ⟨a', b', rfl⟩ := h r hr
      simp
  unfold np_state_obs
  rw [if_pos hall, row_diff_sum keep h]

/-- A successful row-wise indicator `mapM` (the body of `eqFloatMean`)
returns exactly the mapped rows. -/
theorem mapM_rowInd_ok (l : List (T1 × T1)) (rows : T2)
    (h : (l.mapM fun p =>
        if p.1.length = p.2.length then
          Except.ok ((p.1.zip p.2).map fun q => if q.1 = q.2 then (1 : ℚ) else 0)
        else Except.error PyErr.runtimeError) = Except.ok rows) :
    rows = l.map fun p => (p.1.zip p.2).map fun q => if q.1 = q.2 then (1 : ℚ) else 0 := by
  induction l generalizing rows with
  | nil =>
    rw [List.mapM_nil] at h
    injection h with h
    exact h.symm
  | cons p l ih =>
    rw [List.mapM_cons] at h
    split at h
    · cases hm : l.mapM fun p =>
          if p.1.length = p.2.length then
            Except.ok ((p.1.zip p.2).map fun q => if q.1 = q.2 then (1 : ℚ) else 0)
          else Except.error PyErr.runtimeError with
      | error e =>
        rw [hm] at h
        exact absurd h (by simp [except_bind_ok, except_bind_err])
      | ok ys =>
        rw [hm] at h
        simp only [except_bind_ok, except_pure, Except.ok.injEq] at h
        rw [← h, List.map_cons, ih ys hm]
    · exact absurd h (by simp [except_bind_err])

/-- `eqFloatMean` computes the fraction of exactly matching scalar pairs. -/
theorem eqFloatMean_ok (gt pred : T2) (r : ℚ)
    (h : eqFloatMean gt pred = .ok r) :
    r = (((pairUp gt pred).countP fun q => decide (q.1 = q.2) : ℕ) : ℚ) /
        ((pairUp gt pred).length : ℚ) := by
  unfold eqFloatMean at h
  split at h
  case isFalse => exact absurd h (by simp)
  case isTrue hlen =>
    cases hm : (gt.zip pred).mapM fun p =>
        if p.1.length = p.2.length then
          Except.ok ((p.1.zip p.2).map fun q => if q.1 = q.2 then (1 : ℚ) else 0)
        else Except.error PyErr.runtimeError with
    | error e =>
      rw [hm] at h
      exact absurd h (by simp [except_bind_err])
    | ok rows =>
      rw [hm] at h
      simp only [except_bind_ok, except_pure, Except.ok.injEq] at h
      subst h
      rw [mapM_rowInd_ok _ rows hm]
      have hflat : (((gt.zip pred).map fun p =>
            (p.1.zip p.2).map fun q => if q.1 = q.2 then (1 : ℚ) else 0)).flatten
          = (pairUp gt pred).map fun q => if q.1 = q.2 then (1 : ℚ) else 0 := by
        unfold pairUp
        rw [List.map_flatten, List.map_map]
        rfl
      unfold mean2 flat2
      rw [hflat, sum_indicator_eq_countP (fun q => q.1 = q.2), List.length_map]

/-- Pairing against a binarized prediction is pairing against the raw
prediction with the binarization pushed into the pair. -/
theorem pairUp_binarize_right (gt pred : T2) :
    pairUp gt (binarize2 pred) = (pairUp gt pred).map fun q => (q.1, gripperBinarize q.2) := by
  unfold pairUp binarize2
  rw [List.zip_map_right, List.map_map, List.map_flatten, List.map_map]
  congr 1
  apply List.map_congr_left
  intro p _
  simp only [Function.comp_apply, Prod.map_fst, Prod.map_snd, id_eq]
  rw [List.zip_map_right]
  apply List.map_congr_left
  intro q _
  rfl

/-- Every pair produced by `pairUp` takes its first component from the
flattened first tensor. -/
theorem pairUp_fst_mem (gt pred : T2) (q : ℚ × ℚ) (hq : q ∈ pairUp gt pred) :
    q.1 ∈ flat2 gt := by
  unfold pairUp at hq
  rw [List.mem_flatten] at hq
  obtain ⟨L, hL, hqL⟩ := hq
  rw [List.mem_map] at hL
  obtain ⟨p, hp, rfl⟩ := hL
  obtain ⟨a, b⟩ := q
  have h1 := List.of_mem_zip hqL
  have h2 := List.of_mem_zip hp
  unfold flat2
  rw [List.mem_flatten]
  exact ⟨p.1, h2.1, h1.1⟩

/-- The static channel-count adjustment is idempotent when the RGB count
starts at 3 and the depth encoder contributes at least one channel. -/
theorem static_channel_step_idem (ds : Option DepthConf) (vs : VisionConf)
    (h : ∀ d, ds = some d → vs.num_c = 3 ∧ 1 ≤ d.num_c) :
    static_channel_step ds (static_channel_step ds vs) = static_channel_step ds vs := by
  cases ds with
  | none => rfl
  | some d =>
    obtain ⟨h3, hd⟩ := h d rfl
    have hlt : vs.num_c < 4 := by omega
    simp only [static_channel_step, if_pos hlt]
    rw [if_neg (by simp; omega)]

/-- The gripper channel-count adjustment is idempotent under the same
starting conditions. -/
theorem gripper_channel_step_idem (dg : Option DepthConf) (vg vg' : Option VisionConf)
    (h : ∀ d, dg = some d → ∃ g, vg = some g ∧ g.num_c = 3 ∧ 1 ≤ d.num_c)
    (h1 : gripper_channel_step dg vg = .ok vg') :
    gripper_channel_step dg vg' = .ok vg' := by
  cases dg with
  | none => simp only [gripper_channel_step]
  | some d =>
    obtain ⟨g, rfl, h3, hd⟩ := h d rfl
    have hlt : g.num_c < 4 := by omega
    simp only [gripper_channel_step, if_pos hlt, Except.ok.injEq] at h1
    subst h1
    simp only [gripper_channel_step]
    rw [if_neg (by simp; omega)]

/-- C6: for every configured list of `keep_indices` ranges (pairs
`[start, end]`), the `n_state_obs` value computed by `setup_input_sizes`
and written into the four sub-network configurations (`plan_proposal`,
`plan_recognition`, `visual_goal`, `decoder`) equals the sum over ranges
of `(end − start)`. -/
theorem C6_n_state_obs_is_range_sum
    (vs : VisionConf) (ds : Option DepthConf) (vg : Option VisionConf) (dg : Option DepthConf)
    (pp pr vgl dec : NetConf) (proprio : ProprioConf) (tac : Option TactileConf)
    (out : SetupOut)
    (hrows : ∀ r ∈ proprio.keep_indices, ∃ a b : Int, r = [a, b])
    (h : setup_input_sizes vs ds vg dg pp pr vgl dec proprio tac = .ok out) :
    out.plan_proposal.n_state_obs = rangeSpanSum proprio.keep_indices ∧
    out.plan_recognition.n_state_obs = rangeSpanSum proprio.keep_indices ∧
    out.visual_goal.n_state_obs = rangeSpanSum proprio.keep_indices ∧
    out.decoder.n_state_obs = rangeSpanSum proprio.keep_indices := by
  unfold setup_input_sizes at h
  simp only [np_state_obs_pairs proprio.keep_indices hrows, except_bind_ok] at h
  cases hg : gripper_channel_step dg vg with
  | error e => rw [hg, except_bind_err] at h; exact absurd h (by simp)
  | ok vgO =>
    rw [hg, except_bind_ok] at h
    simp only [except_pure, Except.ok.injEq] at h
    subst h
    exact ⟨rfl, rfl, rfl, rfl⟩

/-- Witness for C6 at the spec's example `[[0,3],[3,6],[7,8]]`, whose
span sum is `7`. -/
theorem C6_witness :
    rangeSpanSum [[0, 3], [3, 6], [7, 8]] = 7 ∧
    (⟨⟨64, 3⟩, none, ⟨7, 64⟩, ⟨7, 64⟩, ⟨7, 64⟩, ⟨7, 64⟩⟩ : SetupOut).plan_proposal.n_state_obs
      = rangeSpanSum [[0, 3], [3, 6], [7, 8]] := by
  refine ⟨by decide, ?_⟩
  exact (C6_n_state_obs_is_range_sum ⟨64, 3⟩ none none none ⟨0, 0⟩ ⟨0, 0⟩ ⟨0, 0⟩ ⟨0, 0⟩
    ⟨[[0, 3], [3, 6], [7, 8]]⟩ none ⟨⟨64, 3⟩, none, ⟨7, 64⟩, ⟨7, 64⟩, ⟨7, 64⟩, ⟨7, 64⟩⟩
    (by intro r hr; fin_cases hr
        · exact ⟨0, 3, rfl⟩
        · exact ⟨3, 6, rfl⟩
        · exact ⟨7, 8, rfl⟩)
    rfl).1

/-- C8: invoking `setup_input_sizes` a second time on the configuration
objects produced by a first invocation performs no further channel-count
increment, provided every present RGB/depth pair started at the RGB-only
default `num_c = 3` with a depth contribution of at least one channel
(after the first increment `num_c ≥ 4`, so the `num_c < 4` guards of
lines 95 and 97 block the second increment). -/
theorem C8_setup_input_sizes_idempotent
    (vs : VisionConf) (ds : Option DepthConf) (vg : Option VisionConf) (dg : Option DepthConf)
    (pp pr vgl dec : NetConf) (proprio : ProprioConf) (tac : Option TactileConf)
    (out out2 : SetupOut)
    (hstat : ∀ d, ds = some d → vs.num_c = 3 ∧ 1 ≤ d.num_c)
    (hgrip : ∀ d, dg = some d → ∃ g, vg = some g ∧ g.num_c = 3 ∧ 1 ≤ d.num_c)
    (h1 : setup_input_sizes vs ds vg dg pp pr vgl dec proprio tac = .ok out)
    (h2 : setup_input_sizes out.vision_static ds out.vision_gripper dg
        out.plan_proposal out.plan_recognition out.visual_goal out.decoder proprio tac
        = .ok out2) :
    out2.vision_static.num_c = out.vision_static.num_c ∧
    out2.vision_gripper.map VisionConf.num_c = out.vision_gripper.map VisionConf.num_c := by
  unfold setup_input_sizes at h1 h2
  cases hn : np_state_obs proprio.keep_indices with
  | error e => rw [hn, except_bind_err] at h1; exact absurd h1 (by simp)
  | ok n =>
    simp only [hn, except_bind_ok] at h1 h2
    cases hg : gripper_channel_step dg vg with
    | error e => rw [hg, except_bind_err] at h1; exact absurd h1 (by simp)
    | ok vgO =>
      rw [hg, except_bind_ok] at h1
      simp only [except_pure, Except.ok.injEq] at h1
      subst h1
      simp only at h2
      rw [gripper_channel_step_idem dg vg vgO hgrip hg, except_bind_ok] at h2
      simp only [except_pure, Except.ok.injEq] at h2
      subst h2
      refine ⟨?_, rfl⟩
      exact congrArg VisionConf.num_c (static_channel_step_idem ds vs hstat)

/-- Witness for C8: full RGB-D static and gripper pairs starting at the
RGB default of 3 channels; the second invocation leaves both channel
counts at 4. -/
theorem C8_witness :
    (⟨⟨64, 4⟩, some ⟨32, 4⟩, ⟨3, 96⟩, ⟨3, 96⟩, ⟨3, 96⟩, ⟨3, 96⟩⟩ : SetupOut).vision_static.num_c
      = (⟨⟨64, 4⟩, some ⟨32, 4⟩, ⟨3, 96⟩, ⟨3, 96⟩, ⟨3, 96⟩, ⟨3, 96⟩⟩ : SetupOut).vision_static.num_c ∧
    (⟨⟨64, 4⟩, some ⟨32, 4⟩, ⟨3, 96⟩, ⟨3, 96⟩, ⟨3, 96⟩, ⟨3, 96⟩⟩ : SetupOut).vision_gripper.map
        VisionConf.num_c
      = (⟨⟨64, 4⟩, some ⟨32, 4⟩, ⟨3, 96⟩, ⟨3, 96⟩, ⟨3, 96⟩, ⟨3, 96⟩⟩ : SetupOut).vision_gripper.map
        VisionConf.num_c :=
  C8_setup_input_sizes_idempotent ⟨64, 3⟩ (some ⟨1⟩) (some ⟨32, 3⟩) (some ⟨1⟩)
    ⟨0, 0⟩ ⟨0, 0⟩ ⟨0, 0⟩ ⟨0, 0⟩ ⟨[[0, 3]]⟩ none
    ⟨⟨64, 4⟩, some ⟨32, 4⟩, ⟨3, 96⟩, ⟨3, 96⟩, ⟨3, 96⟩, ⟨3, 96⟩⟩
    ⟨⟨64, 4⟩, some ⟨32, 4⟩, ⟨3, 96⟩, ⟨3, 96⟩, ⟨3, 96⟩, ⟨3, 96⟩⟩
    (by intro d hd; injection hd with hd; subst hd; exact ⟨rfl, by decide⟩)
    (by intro d hd; injection hd with hd; subst hd; exact ⟨⟨32, 3⟩, rfl, rfl, by decide⟩)
    rfl rfl

/-- C10: when a gripper depth-encoder config is provided while the gripper
vision-encoder config is absent, `setup_input_sizes` raises
AttributeError at line 95 (`vision_gripper.num_c` on `None`) instead of
skipping the gripper fusion branch, so `__init__` (which calls it first,
line 40) never completes for such a configuration. -/
theorem C10_gripper_depth_without_encoder_raises
    (vs : VisionConf) (ds : Option DepthConf) (d : DepthConf)
    (pp pr vgl dec : NetConf) (proprio : ProprioConf) (tac : Option TactileConf)
    (n : Int) (hn : np_state_obs proprio.keep_indices = .ok n) :
    setup_input_sizes vs ds none (some d) pp pr vgl dec proprio tac
      = .error .attributeError := by
  unfold setup_input_sizes
  simp only [hn, except_bind_ok]
  simp [gripper_channel_step, except_bind_err]

/-- Witness for C10 at a concrete configuration. -/
theorem C10_witness :
    setup_input_sizes ⟨64, 3⟩ none none (some ⟨1⟩) ⟨0, 0⟩ ⟨0, 0⟩ ⟨0, 0⟩ ⟨0, 0⟩
      ⟨[[0, 3]]⟩ none = .error .attributeError :=
  C10_gripper_depth_without_encoder_raises ⟨64, 3⟩ none ⟨1⟩ ⟨0, 0⟩ ⟨0, 0⟩ ⟨0, 0⟩ ⟨0, 0⟩
    ⟨[[0, 3]]⟩ none 3 rfl

/-- A concrete collaborator assembly for evaluating the orchestrator on
explicit inputs: every sub-network is a simple total function honouring
the shape contracts of §6 (the static encoder maps each `(C, H, W)` frame
to a one-dimensional feature). -/
def Mex : PlayLMP where
  plan_proposal := fun _ _ => ([[0]], [[0]])
  plan_recognition := fun _ => ([[1]], [[1]])
  vision_static := fun t => t.map fun _ => [0]
  vision_gripper := none
  visual_goal := fun x => x
  language_goal := none
  tactile_enc := none
  dist_sample := fun d => d.1
  dist_rsample := fun d => d.1
  kl_div_mean := fun _ _ => 1
  decoder_loss := fun _ _ _ _ => 3
  decoder_loss_and_act := fun _ _ _ _ => (0, [[[0, 3]]])
  decoder_act := fun _ _ _ => [[[0]]]
  kl_beta := 2
  modality_scope := "vis".toList

/-- C2 (code bug): `visual_embedding` succeeds on a static-camera batch
with an *empty* depth mapping, but as soon as the depth mapping contains a
`'depth_static'` entry, line 114 subscripts the RGB mapping
(`imgs["depth_static"]`) instead of the depth mapping whose membership was
just tested, raising KeyError instead of fusing the depth tensor as an
extra channel. -/
theorem C2_depth_read_from_wrong_mapping :
    visual_embedding Mex (Arg.dict [(rgb_static_key, Val.t5 [[[[[1]]]]])]) (Arg.dict [])
      = .ok [[[0]]] ∧
    visual_embedding Mex (Arg.dict [(rgb_static_key, Val.t5 [[[[[1]]]]])])
        (Arg.dict [(depth_static_key, Val.t4 [[[[1]]]])])
      = .error .keyError :=
  ⟨rfl, rfl⟩

/-- C7 (code bug): `get_pp_plan_vision` does fail fast by assertion on
current/goal image lists (and depth lists) of unequal length, but on
equal-length inputs it raises TypeError instead of returning a plan: it
builds Python lists (lines 462-467) and `visual_embedding` subscripts
them with the string key `'rgb_static'`. -/
theorem C7_get_pp_plan_vision_asserts_then_raises :
    (get_pp_plan_vision Mex [[[[[1]]]], [[[[1]]]]] [[[[1]]]] [[[[[1]]]]] [[[[1]]]] [[1]] [[1]]).1
      = .error .assertionError ∧
    (get_pp_plan_vision Mex [[[[[1]]]]] [[[[1]]], [[[1]]]] [[[[[1]]]]] [[[[1]]]] [[1]] [[1]]).1
      = .error .assertionError ∧
    (get_pp_plan_vision Mex [[[[[1]]]]] [[[[1]]]] [[[[[1]]]]] [[[[1]]]] [[1]] [[1]]).1
      = .error .typeError :=
  ⟨rfl, rfl, rfl⟩

/-- C9 (code bug): with the goal inputs identical to the current inputs,
`get_pp_plan_vision` never reaches the latent-goal computation — the
call raises TypeError inside `visual_embedding` (Python lists subscripted
with string keys), so no latent goal is returned at all. -/
theorem C9_identical_inputs_raise :
    (get_pp_plan_vision Mex [[[[[2]]]]] [[[[2]]]] [[[[[2]]]]] [[[[2]]]] [[2]] [[2]]).1
      = .error .typeError :=
  rfl

/-- C5: the three inference entry points are pure in the module state
(their bodies contain no assignment to `self` and run inside
`torch.no_grad()`, so trainable parameters are untouched — the returned
state equals the input state), and none of them depends on the
plan-recognition field: replacing the recognition network by an arbitrary
one leaves all three results unchanged, i.e. the recognition network is
never invoked. -/
theorem C5_inference_pure_and_no_recognition (M : PlayLMP) (r : T3 → Dist)
    (ci : List T4) (cd : List T3) (cs lg sp : T2)
    (gi : List T4) (gd : List T3) (gs glang : T2) :
    (predict_with_plan M ci cd cs lg sp).2 = M ∧
    (get_pp_plan_vision M ci cd gi gd cs gs).2 = M ∧
    (get_pp_plan_lang M ci cd cs glang).2 = M ∧
    (predict_with_plan { M with plan_recognition := r } ci cd cs lg sp).1
      = (predict_with_plan M ci cd cs lg sp).1 ∧
    (get_pp_plan_vision { M with plan_recognition := r } ci cd gi gd cs gs).1
      = (get_pp_plan_vision M ci cd gi gd cs gs).1 ∧
    (get_pp_plan_lang { M with plan_recognition := r } ci cd cs glang).1
      = (get_pp_plan_lang M ci cd cs glang).1 :=
  ⟨rfl, rfl, rfl, rfl, rfl, rfl⟩

/-- C1 (amended): in `lmp_val`, the gripper success rate of each branch
(proposal and recognition) equals the fraction of elements whose *raw*
ground-truth gripper action exactly equals the predicted gripper action
after the prediction alone is binarized to {+1, −1} with a threshold at
zero; the ground truth is not binarized (line 202/221 compares
`gt_gripper_act` unmodified).  The claim as stated — binarizing both —
holds exactly when every ground-truth gripper entry already lies in
{+1, −1} (final conjunct). -/
theorem C1_gripper_sr_amended (M : PlayLMP) (pe : T3) (lg : T2) (acts : T3)
    (out : LmpValOut) (h : lmp_val M pe lg acts = .ok out) :
    ∃ pe0 gt predPP predPR,
      indexFirst pe = .ok pe0 ∧
      lastFeat3 acts = .ok gt ∧
      lastFeat3 (M.decoder_loss_and_act (M.dist_sample (M.plan_proposal pe0 lg)) pe lg acts).2
        = .ok predPP ∧
      lastFeat3 (M.decoder_loss_and_act (M.dist_sample (M.plan_recognition pe)) pe lg acts).2
        = .ok predPR ∧
      out.gripper_sr_pp = gripper_sr_actual gt predPP ∧
      out.gripper_sr_pr = gripper_sr_actual gt predPR ∧
      ((∀ x ∈ flat2 gt, x = 1 ∨ x = -1) →
        out.gripper_sr_pp = gripper_sr_spec gt predPP ∧
        out.gripper_sr_pr = gripper_sr_spec gt predPR) := by
  have hbin : ∀ (g p : T2) (r : ℚ), eqFloatMean g (binarize2 p) = .ok r →
      r = gripper_sr_actual g p := by
    intro g p r hr
    have e1 := eqFloatMean_ok _ _ _ hr
    rw [pairUp_binarize_right, List.countP_map, List.length_map] at e1
    exact e1
  have hspec : ∀ (g p : T2), (∀ x ∈ flat2 g, x = 1 ∨ x = -1) →
      gripper_sr_actual g p = gripper_sr_spec g p := by
    intro g p hg
    unfold gripper_sr_actual gripper_sr_spec
    congr 2
    apply List.countP_congr
    intro q hq
    rcases hg q.1 (pairUp_fst_mem g p q hq) with h1 | h1
    · rw [h1]
      have : gripperBinarize 1 = 1 := by norm_num [gripperBinarize]
      rw [this]
    · rw [h1]
      have : gripperBinarize (-1) = -1 := by norm_num [gripperBinarize]
      rw [this]
  simp only [lmp_val] at h
  cases h0 : indexFirst pe with
  | error e => rw [h0, except_bind_err] at h; exact absurd h (by simp)
  | ok pe0 =>
  simp only [h0, except_bind_ok] at h
  cases h1 : l1None
      (dropLastFeat (M.decoder_loss_and_act (M.dist_sample (M.plan_proposal pe0 lg)) pe lg acts).2)
      (dropLastFeat acts) with
  | error e => rw [h1, except_bind_err] at h; exact absurd h (by simp)
  | ok m1 =>
  simp only [h1, except_bind_ok] at h
  cases h2 : lastFeat3
      (M.decoder_loss_and_act (M.dist_sample (M.plan_proposal pe0 lg)) pe lg acts).2 with
  | error e => rw [h2, except_bind_err] at h; exact absurd h (by simp)
  | ok predPP =>
  simp only [h2, except_bind_ok] at h
  cases h3 : lastFeat3 acts with
  | error e => rw [h3, except_bind_err] at h; exact absurd h (by simp)
  | ok gt =>
  simp only [h3, except_bind_ok] at h
  cases h4 : eqFloatMean gt (binarize2 predPP) with
  | error e => rw [h4, except_bind_err] at h; exact absurd h (by simp)
  | ok r1 =>
  simp only [h4, except_bind_ok] at h
  cases h5 : l1None
      (dropLastFeat (M.decoder_loss_and_act (M.dist_sample (M.plan_recognition pe)) pe lg acts).2)
      (dropLastFeat acts) with
  | error e => rw [h5, except_bind_err] at h; exact absurd h (by simp)
  | ok m2 =>
  simp only [h5, except_bind_ok] at h
  cases h6 : lastFeat3
      (M.decoder_loss_and_act (M.dist_sample (M.plan_recognition pe)) pe lg acts).2 with
  | error e => rw [h6, except_bind_err] at h; exact absurd h (by simp)
  | ok predPR =>
  simp only [h6, except_bind_ok] at h
  cases h7 : eqFloatMean gt (binarize2 predPR) with
  | error e => rw [h7, except_bind_err] at h; exact absurd h (by simp)
  | ok r2 =>
  simp only [h7, except_bind_ok, except_pure, Except.ok.injEq] at h
  subst h
  refine ⟨pe0, gt, predPP, predPR, rfl, rfl, h2, rfl, hbin gt predPP r1 h4, hbin gt predPR r2 h7, ?_⟩
  intro hg
  exact ⟨(hbin gt predPP r1 h4).trans (hspec gt predPP hg),
         (hbin gt predPR r2 h7).trans (hspec gt predPR hg)⟩

/-- Concrete evaluation of `lmp_val` with `Mex` on a batch of one
single-step sequence whose action vector is `[0, 2]` (ground-truth
gripper action `2`), while the decoder's sampled action is `[0, 3]`
(predicted gripper action `3`). -/
theorem Mex_lmp_val_eval :
    lmp_val Mex [[[0]]] [[0]] [[[0, 2]]]
      = .ok ⟨[[0]], 0, [[1]], 0, 2, [[0]], [[0]], 0, 0⟩ := by
  norm_num [lmp_val, Mex, indexFirst, lastFeat3, dropLastFeat, l1None, meanDim1,
    binarize2, gripperBinarize, eqFloatMean, mean2, flat2, compute_kl_loss,
    except_bind_ok, except_pure, List.mapM.loop, List.range_succ, List.range_zero,
    List.getD_cons_zero, List.getD_cons_succ]

/-- C1 counterexample: at the concrete input of `Mex_lmp_val_eval` the
proposal-branch gripper success rate computed by `lmp_val` is `0` (the
raw ground truth `2` differs from the binarized prediction `+1`), while
the spec's both-binarized fraction over the same ground-truth slice
`[[2]]` and predicted slice `[[3]]` is `1` — so the claim as stated is
false on the code. -/
theorem C1_counterexample :
    ¬ ((lmp_val Mex [[[0]]] [[0]] [[[0, 2]]]).map (fun o => o.gripper_sr_pp)
        = .ok (gripper_sr_spec [[2]] [[3]])) := by
  rw [Mex_lmp_val_eval]
  have h2 : gripper_sr_spec [[2]] [[3]] = 1 := by
    norm_num [gripper_sr_spec, pairUp, gripperBinarize]
  rw [h2]
  simp only [Except.map, Except.ok.injEq]
  norm_num

/-- Witness for the amended C1 at the input of `Mex_lmp_val_eval`. -/
theorem C1_witness :
    ∃ pe0 gt predPP predPR,
      indexFirst [[[(0 : ℚ)]]] = .ok pe0 ∧
      lastFeat3 [[[(0 : ℚ), 2]]] = .ok gt ∧
      lastFeat3 (Mex.decoder_loss_and_act (Mex.dist_sample (Mex.plan_proposal pe0 [[0]]))
          [[[0]]] [[0]] [[[0, 2]]]).2 = .ok predPP ∧
      lastFeat3 (Mex.decoder_loss_and_act (Mex.dist_sample (Mex.plan_recognition [[[0]]]))
          [[[0]]] [[0]] [[[0, 2]]]).2 = .ok predPR ∧
      (⟨[[0]], 0, [[1]], 0, 2, [[0]], [[0]], 0, 0⟩ : LmpValOut).gripper_sr_pp
        = gripper_sr_actual gt predPP ∧
      (⟨[[0]], 0, [[1]], 0, 2, [[0]], [[0]], 0, 0⟩ : LmpValOut).gripper_sr_pr
        = gripper_sr_actual gt predPR ∧
      ((∀ x ∈ flat2 gt, x = 1 ∨ x = -1) →
        (⟨[[0]], 0, [[1]], 0, 2, [[0]], [[0]], 0, 0⟩ : LmpValOut).gripper_sr_pp
          = gripper_sr_spec gt predPP ∧
        (⟨[[0]], 0, [[1]], 0, 2, [[0]], [[0]], 0, 0⟩ : LmpValOut).gripper_sr_pr
          = gripper_sr_spec gt predPR) :=
  C1_gripper_sr_amended Mex [[[0]]] [[0]] [[[0, 2]]]
    ⟨[[0]], 0, [[1]], 0, 2, [[0]], [[0]], 0, 0⟩ Mex_lmp_val_eval

/-- The action-reconstruction loss one modality contributes in
`training_step`: the pipeline of lines 266-274 (`visual_embedding`,
`perceptual_embedding`, goal selection) followed by `lmp_train`'s decoder
loss on the reparameterized recognition sample. -/
def modality_action_loss (M : PlayLMP) (scope : Name) (db : ModBatch) : Except PyErr ℚ := do
  let visual_emb ← visual_embedding M db.rgb_obs db.depth_obs
  let pe ← perceptual_embedding visual_emb db.robot_obs
  let lg ← latent_goal_of M scope pe db
  let _pe0 ← indexFirst pe
  pure (M.decoder_loss (M.dist_rsample (M.plan_recognition pe)) pe lg db.actions)

/-- The batch-averaged KL divergence (recognition against proposal) one
modality contributes in `training_step`. -/
def modality_kl_mean (M : PlayLMP) (scope : Name) (db : ModBatch) : Except PyErr ℚ := do
  let visual_emb ← visual_embedding M db.rgb_obs db.depth_obs
  let pe ← perceptual_embedding visual_emb db.robot_obs
  let lg ← latent_goal_of M scope pe db
  let pe0 ← indexFirst pe
  pure (M.kl_div_mean (M.plan_recognition pe) (M.plan_proposal pe0 lg))

/-- The training loop accumulates, for each modality in order, the
per-modality total `action_loss + kl_beta · kl_mean` on top of the
incoming accumulator. -/
theorem train_loop_total (M : PlayLMP) (l : List (Name × ModBatch)) :
    ∀ (k a t : ℚ) (s : Name) (r : ℚ × ℚ × ℚ × Name),
      train_loop M l k a t s = .ok r →
      ∃ as ks : List ℚ,
        l.mapM (fun p => modality_action_loss M p.1 p.2) = .ok as ∧
        l.mapM (fun p => modality_kl_mean M p.1 p.2) = .ok ks ∧
        r.2.2.1 = t + ((as.zip ks).map fun q => q.1 + M.kl_beta * q.2).sum := by
  induction l with
  | nil =>
    intro k a t s r h
    simp only [train_loop] at h
    injection h with h
    exact ⟨[], [], rfl, rfl, by rw [← h]; simp⟩
  | cons p l ih =>
    intro k a t s r h
    obtain ⟨nm, db⟩ := p
    simp only [train_loop] at h
    cases hv : visual_embedding M db.rgb_obs db.depth_obs with
    | error e => rw [hv, except_bind_err] at h; exact absurd h (by simp)
    | ok ve =>
    simp only [hv, except_bind_ok] at h
    cases hp : perceptual_embedding ve db.robot_obs with
    | error e => rw [hp, except_bind_err] at h; exact absurd h (by simp)
    | ok pe =>
    simp only [hp, except_bind_ok] at h
    cases hg : latent_goal_of M nm pe db with
    | error e => rw [hg, except_bind_err] at h; exact absurd h (by simp)
    | ok lg =>
    simp only [hg, except_bind_ok, lmp_train, bind_assoc] at h
    cases hi : indexFirst pe with
    | error e => rw [hi, except_bind_err] at h; exact absurd h (by simp)
    | ok pe0 =>
    simp only [hi, except_bind_ok, except_pure, except_bind_ok] at h
    obtain ⟨as, ks, ha, hk, ht⟩ := ih _ _ _ _ _ h
    refine ⟨M.decoder_loss (M.dist_rsample (M.plan_recognition pe)) pe lg db.actions :: as,
            M.kl_div_mean (M.plan_recognition pe) (M.plan_proposal pe0 lg) :: ks, ?_, ?_, ?_⟩
    · rw [List.mapM_cons]
      have : modality_action_loss M nm db
          = .ok (M.decoder_loss (M.dist_rsample (M.plan_recognition pe)) pe lg db.actions) := by
        simp [modality_action_loss, hv, hp, hg, hi, except_bind_ok, except_pure]
      rw [this, except_bind_ok, ha, except_bind_ok, except_pure]
    · rw [List.mapM_cons]
      have : modality_kl_mean M nm db
          = .ok (M.kl_div_mean (M.plan_recognition pe) (M.plan_proposal pe0 lg)) := by
        simp [modality_kl_mean, hv, hp, hg, hi, except_bind_ok, except_pure]
      rw [this, except_bind_ok, hk, except_bind_ok, except_pure]
    · rw [ht]
      simp only [List.zip_cons_cons, List.map_cons, List.sum_cons, compute_kl_loss]
      ring

/-- C3: for every non-empty modality batch mapping, `training_step`
returns a total loss equal to the sum over modalities of
`action_loss + kl_beta · (batch-averaged KL from recognition to
proposal)`, divided by the number of modalities — uniform per-modality
weighting, independent of per-modality batch size (which never enters the
aggregation). -/
theorem C3_training_step_total_loss (M : PlayLMP) (batch : List (Name × ModBatch)) (t : ℚ)
    (_hne : batch ≠ [])
    (h : (training_step M batch).map Prod.fst = .ok t) :
    ∃ as ks : List ℚ,
      batch.mapM (fun p => modality_action_loss M p.1 p.2) = .ok as ∧
      batch.mapM (fun p => modality_kl_mean M p.1 p.2) = .ok ks ∧
      t = ((as.zip ks).map fun q => q.1 + M.kl_beta * q.2).sum / (batch.length : ℚ) := by
  cases hr : train_loop M batch 0 0 0 M.modality_scope with
  | error e =>
    rw [training_step] at h
    rw [hr, except_bind_err] at h
    exact absurd h (by simp [except_map_err])
  | ok r =>
    rw [training_step] at h
    simp only [hr, except_bind_ok, except_pure, except_map_ok, Except.ok.injEq] at h
    obtain ⟨as, ks, ha, hk, ht⟩ := train_loop_total M batch 0 0 0 M.modality_scope r hr
    refine ⟨as, ks, ha, hk, ?_⟩
    rw [← h, ht, zero_add]

/-- A concrete one-modality batch: a single 1×1×1×1×1 static-camera
frame, no depth, a matching one-step proprioceptive state and a two-dim
action. -/
def dbEx : ModBatch where
  rgb_obs := Arg.dict [(rgb_static_key, Val.t5 [[[[[1]]]]])]
  depth_obs := Arg.dict []
  robot_obs := [[[1]]]
  actions := [[[0, 2]]]
  lang := none
  idx := 0

/-- Concrete evaluation of `training_step` with `Mex` on the one-modality
batch `dbEx` under the scope `"vis"`: decoder loss 3, KL mean 1, kl_beta
2 give a total of `(3 + 2·1)/1 = 5`. -/
theorem Mex_training_step_eval :
    (training_step Mex [("vis".toList, dbEx)]).map Prod.fst = .ok 5 := by
  have hve : visual_embedding Mex dbEx.rgb_obs dbEx.depth_obs = .ok [[[0]]] := rfl
  have hpe : perceptual_embedding [[[0]]] dbEx.robot_obs = .ok [[[0, 1]]] := rfl
  have hlg : latent_goal_of Mex "vis".toList [[[0, 1]]] dbEx = .ok [[0, 1]] := rfl
  have hlt : lmp_train Mex [[[0, 1]]] [[0, 1]] dbEx.actions
      = .ok (2, 3, 5, ([[0]], [[0]]), ([[1]], [[1]])) := by
    norm_num [lmp_train, Mex, indexFirst, compute_kl_loss, except_bind_ok, except_pure,
      List.mapM.loop]
  simp only [training_step, train_loop, hve, hpe, hlg, hlt, except_bind_ok, except_pure,
    except_map_ok, Except.ok.injEq]
  norm_num

/-- Witness for C3 on the concrete one-modality batch: action losses
`[3]`, KL means `[1]`, total `5 = (3 + 2·1)/1`. -/
theorem C3_witness :
    ∃ as ks : List ℚ,
      [(("vis".toList : Name), dbEx)].mapM (fun p => modality_action_loss Mex p.1 p.2)
        = .ok as ∧
      [(("vis".toList : Name), dbEx)].mapM (fun p => modality_kl_mean Mex p.1 p.2)
        = .ok ks ∧
      (5 : ℚ) = ((as.zip ks).map fun q => q.1 + Mex.kl_beta * q.2).sum
        / (([(("vis".toList : Name), dbEx)].length : ℕ) : ℚ) :=
  C3_training_step_total_loss Mex [("vis".toList, dbEx)] 5 (by simp) Mex_training_step_eval

/-- `visual_embedding` never reads the language-goal encoder. -/
theorem visual_embedding_lang (M : PlayLMP) (x : Option (T2 → T2)) (i d : Arg) :
    visual_embedding { M with language_goal := x } i d = visual_embedding M i d := rfl

/-- `visual_embedding` never reads the visual-goal encoder. -/
theorem visual_embedding_vg (M : PlayLMP) (x : T2 → T2) (i d : Arg) :
    visual_embedding { M with visual_goal := x } i d = visual_embedding M i d := rfl

/-- `lmp_train` never reads the language-goal encoder. -/
theorem lmp_train_lang (M : PlayLMP) (x : Option (T2 → T2)) (pe : T3) (lg : T2) (acts : T3) :
    lmp_train { M with language_goal := x } pe lg acts = lmp_train M pe lg acts := rfl

/-- `lmp_train` never reads the visual-goal encoder. -/
theorem lmp_train_vg (M : PlayLMP) (x : T2 → T2) (pe : T3) (lg : T2) (acts : T3) :
    lmp_train { M with visual_goal := x } pe lg acts = lmp_train M pe lg acts := rfl

/-- `lmp_val` never reads the language-goal encoder. -/
theorem lmp_val_lang (M : PlayLMP) (x : Option (T2 → T2)) (pe : T3) (lg : T2) (acts : T3) :
    lmp_val { M with language_goal := x } pe lg acts = lmp_val M pe lg acts := rfl

/-- `lmp_val` never reads the visual-goal encoder. -/
theorem lmp_val_vg (M : PlayLMP) (x : T2 → T2) (pe : T3) (lg : T2) (acts : T3) :
    lmp_val { M with visual_goal := x } pe lg acts = lmp_val M pe lg acts := rfl

/-- Under a `"vis"` scope the goal selection never reads the
language-goal encoder. -/
theorem latent_goal_of_lang_vis (M : PlayLMP) (x : Option (T2 → T2)) (scope : Name)
    (pe : T3) (db : ModBatch) (h : strHas scope vis_marker = true) :
    latent_goal_of { M with language_goal := x } scope pe db
      = latent_goal_of M scope pe db := by
  simp only [latent_goal_of, h, if_true]

/-- Under a non-`"vis"` scope the goal selection never reads the
visual-goal encoder. -/
theorem latent_goal_of_vg_notvis (M : PlayLMP) (x : T2 → T2) (scope : Name)
    (pe : T3) (db : ModBatch) (h : strHas scope vis_marker = false) :
    latent_goal_of { M with visual_goal := x } scope pe db
      = latent_goal_of M scope pe db := by
  simp only [latent_goal_of, h, Bool.false_eq_true, if_false]

/-- Replacing the language-goal encoder is unobservable throughout the
training loop when every modality scope contains `"vis"`. -/
theorem train_loop_lang_inv (M : PlayLMP) (x : Option (T2 → T2)) (l : List (Name × ModBatch))
    (h : ∀ p ∈ l, strHas p.1 vis_marker = true) :
    ∀ (k a t : ℚ) (s : Name),
      train_loop { M with language_goal := x } l k a t s = train_loop M l k a t s := by
  induction l with
  | nil => intro k a t s; rfl
  | cons p l ih =>
    intro k a t s
    obtain ⟨nm, db⟩ := p
    simp only [train_loop, visual_embedding_lang]
    cases hv : visual_embedding M db.rgb_obs db.depth_obs with
    | error e => rfl
    | ok ve =>
    simp only [except_bind_ok]
    cases hp : perceptual_embedding ve db.robot_obs with
    | error e => rfl
    | ok pe =>
    simp only [except_bind_ok,
      latent_goal_of_lang_vis M x nm pe db (h (nm, db) (by simp))]
    cases hg : latent_goal_of M nm pe db with
    | error e => rfl
    | ok lg =>
    simp only [except_bind_ok, lmp_train_lang]
    cases hl : lmp_train M pe lg db.actions with
    | error e => rfl
    | ok r =>
    simp only [except_bind_ok]
    exact ih (fun q hq => h q (List.mem_cons_of_mem _ hq)) _ _ _ _

/-- Replacing the visual-goal encoder is unobservable throughout the
training loop when no modality scope contains `"vis"`. -/
theorem train_loop_vg_inv (M : PlayLMP) (x : T2 → T2) (l : List (Name × ModBatch))
    (h : ∀ p ∈ l, strHas p.1 vis_marker = false) :
    ∀ (k a t : ℚ) (s : Name),
      train_loop { M with visual_goal := x } l k a t s = train_loop M l k a t s := by
  induction l with
  | nil => intro k a t s; rfl
  | cons p l ih =>
    intro k a t s
    obtain ⟨nm, db⟩ := p
    simp only [train_loop, visual_embedding_vg]
    cases hv : visual_embedding M db.rgb_obs db.depth_obs with
    | error e => rfl
    | ok ve =>
    simp only [except_bind_ok]
    cases hp : perceptual_embedding ve db.robot_obs with
    | error e => rfl
    | ok pe =>
    simp only [except_bind_ok,
      latent_goal_of_vg_notvis M x nm pe db (h (nm, db) (by simp))]
    cases hg : latent_goal_of M nm pe db with
    | error e => rfl
    | ok lg =>
    simp only [except_bind_ok, lmp_train_vg]
    cases hl : lmp_train M pe lg db.actions with
    | error e => rfl
    | ok r =>
    simp only [except_bind_ok]
    exact ih (fun q hq => h q (List.mem_cons_of_mem _ hq)) _ _ _ _

/-- Replacing the language-goal encoder is unobservable throughout the
validation loop when every modality scope contains `"vis"`. -/
theorem val_loop_lang_inv (M : PlayLMP) (x : Option (T2 → T2)) (l : List (Name × ModBatch))
    (h : ∀ p ∈ l, strHas p.1 vis_marker = true) :
    ∀ (out : List (Name × OutVal)) (s : Name),
      val_loop { M with language_goal := x } l out s = val_loop M l out s := by
  induction l with
  | nil => intro out s; rfl
  | cons p l ih =>
    intro out s
    obtain ⟨nm, db⟩ := p
    simp only [val_loop, visual_embedding_lang]
    cases hv : visual_embedding M db.rgb_obs db.depth_obs with
    | error e => rfl
    | ok ve =>
    simp only [except_bind_ok]
    cases hp : perceptual_embedding ve db.robot_obs with
    | error e => rfl
    | ok pe =>
    simp only [except_bind_ok,
      latent_goal_of_lang_vis M x nm pe db (h (nm, db) (by simp))]
    cases hg : latent_goal_of M nm pe db with
    | error e => rfl
    | ok lg =>
    simp only [except_bind_ok, lmp_val_lang]
    cases hl : lmp_val M pe lg db.actions with
    | error e => rfl
    | ok o =>
    simp only [except_bind_ok]
    exact ih (fun q hq => h q (List.mem_cons_of_mem _ hq)) _ _

/-- Replacing the visual-goal encoder is unobservable throughout the
validation loop when no modality scope contains `"vis"`. -/
theorem val_loop_vg_inv (M : PlayLMP) (x : T2 → T2) (l : List (Name × ModBatch))
    (h : ∀ p ∈ l, strHas p.1 vis_marker = false) :
    ∀ (out : List (Name × OutVal)) (s : Name),
      val_loop { M with visual_goal := x } l out s = val_loop M l out s := by
  induction l with
  | nil => intro out s; rfl
  | cons p l ih =>
    intro out s
    obtain ⟨nm, db⟩ := p
    simp only [val_loop, visual_embedding_vg]
    cases hv : visual_embedding M db.rgb_obs db.depth_obs with
    | error e => rfl
    | ok ve =>
    simp only [except_bind_ok]
    cases hp : perceptual_embedding ve db.robot_obs with
    | error e => rfl
    | ok pe =>
    simp only [except_bind_ok,
      latent_goal_of_vg_notvis M x nm pe db (h (nm, db) (by simp))]
    cases hg : latent_goal_of M nm pe db with
    | error e => rfl
    | ok lg =>
    simp only [except_bind_ok, lmp_val_vg]
    cases hl : lmp_val M pe lg db.actions with
    | error e => rfl
    | ok o =>
    simp only [except_bind_ok]
    exact ih (fun q hq => h q (List.mem_cons_of_mem _ hq)) _ _

/-- C4: in the per-modality loops of `training_step` and
`validation_step`, the latent goal is the visual-goal encoder applied to
the last timestep of the perceptual embedding exactly when the modality
name contains the marker substring `"vis"`, and otherwise the
language-goal encoder applied to that modality's `lang` field.
Conjuncts (i)/(ii) characterize the selection both steps perform
(`latent_goal_of` is the loop body's goal computation, lines 268-272 and
333-337); conjuncts (iii)/(iv) state it operationally: when every scope
contains `"vis"`, replacing the language-goal encoder is unobservable in
both steps (it is never invoked), and when no scope does, replacing the
visual-goal encoder is unobservable. -/
theorem C4_goal_dispatch (M : PlayLMP) (scope : Name) (pe : T3) (db : ModBatch)
    (batch : List (Name × ModBatch)) (lgE : Option (T2 → T2)) (vgE : T2 → T2) :
    (strHas scope vis_marker = true →
      latent_goal_of M scope pe db = (indexLast pe).map M.visual_goal) ∧
    (strHas scope vis_marker = false →
      latent_goal_of M scope pe db
        = (match db.lang with
           | some l => callNet M.language_goal l
           | none => Except.error PyErr.keyError)) ∧
    ((∀ p ∈ batch, strHas p.1 vis_marker = true) →
      (training_step { M with language_goal := lgE } batch).map Prod.fst
        = (training_step M batch).map Prod.fst ∧
      (validation_step { M with language_goal := lgE } batch).map Prod.fst
        = (validation_step M batch).map Prod.fst) ∧
    ((∀ p ∈ batch, strHas p.1 vis_marker = false) →
      (training_step { M with visual_goal := vgE } batch).map Prod.fst
        = (training_step M batch).map Prod.fst ∧
      (validation_step { M with visual_goal := vgE } batch).map Prod.fst
        = (validation_step M batch).map Prod.fst) := by
  refine ⟨?_, ?_, ?_, ?_⟩
  · intro h
    unfold latent_goal_of
    rw [if_pos h]
    cases hl : indexLast pe with
    | error e => simp [hl, except_bind_err, except_map_err]
    | ok v => simp [hl, except_bind_ok, except_pure, except_map_ok]
  · intro h
    unfold latent_goal_of
    rw [if_neg (by simp [h])]
    cases hdb : db.lang with
    | none => simp [except_bind_err]
    | some lval => simp [except_bind_ok]
  · intro h
    constructor
    · unfold training_step
      rw [show ({ M with language_goal := lgE } : PlayLMP).modality_scope
            = M.modality_scope from rfl,
          train_loop_lang_inv M lgE batch h 0 0 0 M.modality_scope]
      cases hr : train_loop M batch 0 0 0 M.modality_scope with
      | error e => simp [except_bind_err, except_map_err]
      | ok r => simp [except_bind_ok, except_pure, except_map_ok]
    · unfold validation_step
      rw [show ({ M with language_goal := lgE } : PlayLMP).modality_scope
            = M.modality_scope from rfl,
          val_loop_lang_inv M lgE batch h [] M.modality_scope]
      cases hr : val_loop M batch [] M.modality_scope with
      | error e => simp [except_bind_err, except_map_err]
      | ok r => simp [except_bind_ok, except_pure, except_map_ok]
  · intro h
    constructor
    · unfold training_step
      rw [show ({ M with visual_goal := vgE } : PlayLMP).modality_scope
            = M.modality_scope from rfl,
          train_loop_vg_inv M vgE batch h 0 0 0 M.modality_scope]
      cases hr : train_loop M batch 0 0 0 M.modality_scope with
      | error e => simp [except_bind_err, except_map_err]
      | ok r => simp [except_bind_ok, except_pure, except_map_ok]
    · unfold validation_step
      rw [show ({ M with visual_goal := vgE } : PlayLMP).modality_scope
            = M.modality_scope from rfl,
          val_loop_vg_inv M vgE batch h [] M.modality_scope]
      cases hr : val_loop M batch [] M.modality_scope with
      | error e => simp [except_bind_err, except_map_err]
      | ok r => simp [except_bind_ok, except_pure, except_map_ok]

/-- A language-modality batch: `dbEx` with a language tensor attached. -/
def dbLang : ModBatch := { dbEx with lang := some [[7]] }

/-- Witness for C4: a `"vis"` scope selects the visual-goal path, a
`"lang"` scope selects the language path, and on an all-`"vis"` batch
replacing the language encoder leaves `training_step`'s loss unchanged. -/
theorem C4_witness :
    (latent_goal_of Mex "vis".toList [[[0, 1]]] dbEx
      = (indexLast [[[0, 1]]]).map Mex.visual_goal) ∧
    (latent_goal_of Mex "lang".toList [[[0, 1]]] dbLang
      = (match dbLang.lang with
         | some l => callNet Mex.language_goal l
         | none => Except.error PyErr.keyError)) ∧
    ((training_step { Mex with language_goal := some fun x => x }
        [("vis".toList, dbEx)]).map Prod.fst
      = (training_step Mex [("vis".toList, dbEx)]).map Prod.fst) :=
  ⟨(C4_goal_dispatch Mex "vis".toList [[[0, 1]]] dbEx [("vis".toList, dbEx)]
      (some fun x => x) (fun _ => [[5]])).1 rfl,
   (C4_goal_dispatch Mex "lang".toList [[[0, 1]]] dbLang [("vis".toList, dbEx)]
      (some fun x => x) (fun _ => [[5]])).2.1 rfl,
   ((C4_goal_dispatch Mex "vis".toList [[[0, 1]]] dbEx [("vis".toList, dbEx)]
      (some fun x => x) (fun _ => [[5]])).2.2.1 (by decide)).1⟩

end PlayLMPModel
